import Mathlib

/-!
Verification of `txid_block_lookup.py`: a resumable, rate-limited batch
engine that enriches transaction ids with block metadata fetched from a
remote Esplora-compatible lookup service.

Shallow embedding conventions:
- Python floats (timestamps, rates, backoff durations) are modelled as
  exact rationals `ℚ`.
- The remote HTTP layer is modelled by an oracle `Nat → FetchOutcome`
  giving the outcome of the i-th call made by `robust_lookup`.
- Raised exceptions handled by `try/except` become sum-type branches;
  functions that catch every exception become total functions.
- `time.sleep` / wall-clock effects are recorded as data (the list of
  sleep durations, the number of calls) rather than performed.
-/

namespace TxidBlockLookup

/-! ### `iso_utc` (source lines 62-68)

`iso_utc(ts_unix)` returns `None` for `None`/NaN input, and otherwise
`datetime.fromtimestamp(int(ts_unix), tz=timezone.utc).isoformat()`,
with any exception (out-of-range timestamp) caught and turned into `None`.
The Python value passed in (`None`, NaN, or an integer) is modelled by
`PyOptNum`. -/

/-- A Python value that is `None`, a float NaN, or an integer. -/
inductive PyOptNum where
  | null : PyOptNum
  | nan : PyOptNum
  | int (n : Int) : PyOptNum
deriving DecidableEq, Repr

/-- Broken-down UTC time, the fields of a `datetime` with `tzinfo=utc`. -/
structure UtcTimestampParts where
  year : Int
  month : Nat
  day : Nat
  hour : Nat
  minute : Nat
  second : Nat
deriving DecidableEq, Repr

/-- Civil date from a count of days since 1970-01-01 (proleptic Gregorian
calendar, as used by `datetime.fromtimestamp` with a UTC zone). -/
def civilFromDays (days : Int) : Int × Nat × Nat :=
  let z : Int := days + 719468
  let era : Int := z.ediv 146097
  let doe : Nat := (z.emod 146097).toNat
  let yoe : Nat := (doe - doe / 1460 + doe / 36524 - doe / 146096) / 365
  let y : Int := (yoe : Int) + era * 400
  let doy : Nat := doe - (365 * yoe + yoe / 4 - yoe / 100)
  let mp : Nat := (5 * doy + 2) / 153
  let d : Nat := doy - (153 * mp + 2) / 5 + 1
  let m : Nat := if mp < 10 then mp + 3 else mp - 9
  (if m ≤ 2 then y + 1 else y, m, d)

/-- The broken-down UTC time of a Unix timestamp. -/
def utcPartsOfTimestamp (n : Int) : UtcTimestampParts :=
  let days : Int := n.ediv 86400
  let secs : Nat := (n.emod 86400).toNat
  let ymd := civilFromDays days
  { year := ymd.1, month := ymd.2.1, day := ymd.2.2,
    hour := secs / 3600, minute := secs % 3600 / 60, second := secs % 60 }

/-- Smallest timestamp `datetime.fromtimestamp(·, tz=utc)` accepts:
0001-01-01T00:00:00 UTC. -/
def MIN_TS : Int := -62135596800

/-- Largest timestamp `datetime.fromtimestamp(·, tz=utc)` accepts:
9999-12-31T23:59:59 UTC. -/
def MAX_TS : Int := 253402300799

/-- `datetime.fromtimestamp(n, tz=timezone.utc)`: defined for timestamps
whose year lies in 1..9999, raising otherwise; the raise is modelled as
`none`. -/
def fromtimestampUtc (n : Int) : Option UtcTimestampParts :=
  if MIN_TS ≤ n ∧ n ≤ MAX_TS then some (utcPartsOfTimestamp n) else none

/-- Left-pad a numeral to two digits. -/
def pad2 (n : Nat) : String :=
  if n < 10 then "0" ++ toString n else toString n

/-- Left-pad a numeral to four digits. -/
def pad4 (n : Nat) : String :=
  if n < 10 then "000" ++ toString n
  else if n < 100 then "00" ++ toString n
  else if n < 1000 then "0" ++ toString n
  else toString n

/-- `datetime.isoformat()` for a whole-second UTC datetime:
`YYYY-MM-DDTHH:MM:SS+00:00`. -/
def isoformatUtc (p : UtcTimestampParts) : String :=
  pad4 p.year.toNat ++ "-" ++ pad2 p.month ++ "-" ++ pad2 p.day ++ "T" ++
    pad2 p.hour ++ ":" ++ pad2 p.minute ++ ":" ++ pad2 p.second ++ "+00:00"

/-- `iso_utc` from the source: `None`/NaN give `None`; otherwise the
ISO-8601 UTC string of the timestamp, with conversion failures caught
and turned into `None`. -/
def iso_utc : PyOptNum → Option String
  | .null => none
  | .nan => none
  | .int n => (fromtimestampUtc n).map isoformatUtc

/-! ### `extract_block_fields_from_esplora` (source lines 119-143) -/

/-- The `"status"` object of an Esplora tx JSON; any of its keys may be
absent (`status.get` then yields `None`, which is falsy for
`"confirmed"`). `confirmed` records the truthiness of
`status.get("confirmed")`. -/
structure TxStatus where
  confirmed : Bool
  block_height : Option Int
  block_hash : Option String
  block_time : Option Int
deriving DecidableEq, Repr

/-- The raw tx JSON as far as the code reads it: `status = tx_json.get
("status", {})` (with `{}` when `tx_json` is not a dict). `status = none`
models a missing or empty (falsy) status object. -/
structure TxJson where
  status : Option TxStatus
deriving DecidableEq, Repr

/-- The four derived block fields of a lookup record. -/
structure BlockFields where
  block_height : Option Int
  block_time_unix : Option Int
  block_time_utc_iso : Option String
  block_hash : Option String
deriving DecidableEq, Repr

/-- Lift a Python int-or-None value into `PyOptNum`. -/
def pyOfOptInt : Option Int → PyOptNum
  | none => .null
  | some n => .int n

/-- `extract_block_fields_from_esplora`: an unconfirmed or unrecognized
response yields all-`none` block fields; a confirmed one copies
`block_height`, `block_time`, `block_hash` and derives the ISO string
via `iso_utc`. -/
def extract_block_fields_from_esplora (tx_json : TxJson) : BlockFields :=
  match tx_json.status with
  | none =>
      { block_height := none, block_time_unix := none,
        block_time_utc_iso := none, block_hash := none }
  | some status =>
      if !status.confirmed then
        { block_height := none, block_time_unix := none,
          block_time_utc_iso := none, block_hash := none }
      else
        { block_height := status.block_height,
          block_time_unix := status.block_time,
          block_time_utc_iso := iso_utc (pyOfOptInt status.block_time),
          block_hash := status.block_hash }

/-! ### `robust_lookup` (source lines 145-190) -/

/-- One output record of the lookup engine (one CSV row). -/
structure LookupRecord where
  txid : String
  block_height : Option Int
  block_time_unix : Option Int
  block_time_utc_iso : Option String
  block_hash : Option String
  api_source : String
  error : Option String
deriving DecidableEq, Repr

/-- A record with all block fields absent and `error` set, as built by
every failure branch of `robust_lookup`. -/
def errRecord (txid api_source msg : String) : LookupRecord :=
  { txid := txid, block_height := none, block_time_unix := none,
    block_time_utc_iso := none, block_hash := none,
    api_source := api_source, error := some msg }

/-- Outcome of one `fetch_tx_info_esplora` call, as seen through the
`try/except` arms of `robust_lookup`: success, `requests.HTTPError`
(whose response, hence status code, may be absent),
`requests.ConnectionError`/`requests.Timeout`, or any other exception
(with `"{type(e).__name__}: {e}"` kept as `detail`). -/
inductive FetchOutcome where
  | success (tx_json : TxJson)
  | httpError (status_code : Option Nat)
  | netError
  | unexpected (detail : String)
deriving Repr

/-- Classification of an HTTPError status code by the chain of tests in
`robust_lookup`: `status_code == 404` first; then
`status_code and 400 <= status_code < 500 and status_code != 429`
(`c ≠ 0` is the truthiness test); everything else is retried. -/
inductive HttpClass where
  | notFound
  | clientFinal (c : Nat)
  | retryable
deriving DecidableEq, Repr

/-- The status-code tests of `robust_lookup`, in source order. -/
def classifyHttp (status_code : Option Nat) : HttpClass :=
  if status_code = some 404 then .notFound
  else
    match status_code with
    | some c =>
        if c ≠ 0 ∧ 400 ≤ c ∧ c < 500 ∧ c ≠ 429 then .clientFinal c
        else .retryable
    | none => .retryable

/-- `sleep_s = (backoff_base ** attempt) * (1.5 + (attempt % 3) * 0.2)`,
with the float constants as exact rationals. -/
def backoffSleep (backoff_base : ℚ) (attempt : Nat) : ℚ :=
  backoff_base ^ attempt * (3 / 2 + ((attempt % 3 : Nat) : ℚ) * (1 / 5))

/-- What a run of `robust_lookup` did: the returned record, how many
calls it made to the lookup client, and the backoff sleeps it performed. -/
structure LookupTrace where
  record : LookupRecord
  calls : Nat
  sleeps : List ℚ
deriving Repr

/-- The `while True` loop of `robust_lookup`. `callIdx` counts the calls
already made (so `oracle callIdx` is the outcome of the current call)
and `attempt` is the retry counter. -/
def robustLookupGo (txid api_source : String) (backoff_base : ℚ)
    (max_retries : Nat) (oracle : Nat → FetchOutcome)
    (callIdx attempt : Nat) : LookupTrace :=
  match oracle callIdx with
  | .success tx_json =>
      let fields := extract_block_fields_from_esplora tx_json
      { record := { txid := txid, block_height := fields.block_height,
                    block_time_unix := fields.block_time_unix,
                    block_time_utc_iso := fields.block_time_utc_iso,
                    block_hash := fields.block_hash,
                    api_source := api_source, error := none },
        calls := callIdx + 1, sleeps := [] }
  | .httpError status_code =>
      match classifyHttp status_code with
      | .notFound =>
          { record := errRecord txid api_source "404 Not Found",
            calls := callIdx + 1, sleeps := [] }
      | .clientFinal c =>
          { record := errRecord txid api_source ("HTTP " ++ toString c),
            calls := callIdx + 1, sleeps := [] }
      | .retryable =>
          if hlt : max_retries < attempt + 1 then
            { record := errRecord txid api_source
                ("HTTP error after " ++ toString max_retries ++ " retries"),
              calls := callIdx + 1, sleeps := [] }
          else
            let rest := robustLookupGo txid api_source backoff_base
              max_retries oracle (callIdx + 1) (attempt + 1)
            { rest with
                sleeps := backoffSleep backoff_base (attempt + 1) :: rest.sleeps }
  | .netError =>
      if hlt : max_retries < attempt + 1 then
        { record := errRecord txid api_source
            ("Network/Timeout after " ++ toString max_retries ++ " retries"),
          calls := callIdx + 1, sleeps := [] }
      else
        let rest := robustLookupGo txid api_source backoff_base
          max_retries oracle (callIdx + 1) (attempt + 1)
        { rest with
            sleeps := backoffSleep backoff_base (attempt + 1) :: rest.sleeps }
  | .unexpected detail =>
      { record := errRecord txid api_source ("Unexpected: " ++ detail),
        calls := callIdx + 1, sleeps := [] }
termination_by max_retries + 1 - attempt
decreasing_by
  all_goals omega

/-- `robust_lookup(txid, api_source, session, max_retries, backoff_base)`
with the HTTP layer abstracted into `oracle`. Source defaults:
`max_retries = 5`, `backoff_base = 0.8`. -/
def robust_lookup (txid api_source : String) (oracle : Nat → FetchOutcome)
    (max_retries : Nat) (backoff_base : ℚ) : LookupTrace :=
  robustLookupGo txid api_source backoff_base max_retries oracle 0 0

/-! ### `rate_limit_sleep` (source lines 98-104)

Modelled as the sleep duration the call performs, given the previous
call timestamp, the current wall-clock time (`time.time()`), and the
configured rate. -/

/-- `rate_limit_sleep(last_call_ts, rate_limit_per_sec)`: the number of
seconds slept when the current time is `now`. -/
def rate_limit_sleep (last_call_ts now rate_limit_per_sec : ℚ) : ℚ :=
  if rate_limit_per_sec ≤ 0 then 0
  else
    let min_interval := 1 / rate_limit_per_sec
    let elapsed := now - last_call_ts
    if elapsed < min_interval then min_interval - elapsed else 0

/-! ### Key normalization and resume filtering
(`unique_txids_from_csv`, source lines 70-82; the resume computation of
`enrich_txids_with_block_info`, source lines 218-222) -/

/-- `str.lower()` (ASCII case folding, enough for hex txids), written on
the character list so it evaluates in the kernel. -/
def pyLower (s : String) : String := String.mk (s.data.map Char.toLower)

/-- `str.strip()`: drop whitespace from both ends. -/
def pyStrip (s : String) : String :=
  String.mk
    (((s.data.dropWhile Char.isWhitespace).reverse.dropWhile
      Char.isWhitespace).reverse)

/-- `.str.strip().str.lower()` on one cell. -/
def normalizeTxid (s : String) : String := pyLower (pyStrip s)

/-- `drop_duplicates()` keeping the first occurrence of each value. -/
def dedupFirst : List String → List String
  | [] => []
  | x :: xs => x :: dedupFirst (xs.filter (fun y => y ≠ x))
termination_by l => l.length
decreasing_by
  simpa using Nat.lt_succ_of_le (List.length_filter_le _ _)

/-- `unique_txids_from_csv`: the input column stripped, lowercased and
deduplicated (non-null handling is upstream of the model). -/
def unique_txids_from_csv (column : List String) : List String :=
  dedupFirst (column.map normalizeTxid)

/-- The lowercased keys already present in the Progress Store
(`set(existing["txid"].astype(str).str.lower())` in the source). -/
def storeKeysLower (existing : List String) : List String :=
  existing.map pyLower

/-- `to_fetch = [t for t in txids if t not in have]`. -/
def toFetch (txids existingTxids : List String) : List String :=
  txids.filter (fun t => !(storeKeysLower existingTxids).contains t)

/-- The keys for which the engine loop calls `robust_lookup`: exactly the
elements of `to_fetch`, computed from the raw input column and the txids
already in the store. -/
def issuedLookups (rawColumn existingTxids : List String) : List String :=
  toFetch (unique_txids_from_csv rawColumn) existingTxids

/-! ### The batch loop of `enrich_txids_with_block_info`
(source lines 229-249): accumulate records into `results_batch`, flush to
the store every `checkpoint_every` resolutions or at the end of the list,
and flush whatever remains in the `finally` block. -/

/-- In-memory pending batch plus the records flushed to the store so far
(this run's appends). -/
structure EngineState where
  batch : List LookupRecord
  store : List LookupRecord
deriving DecidableEq, Repr

/-- `(i % checkpoint_every == 0) or (i == len(to_fetch))`: the checkpoint
test at 1-based iteration `i` of a loop over `n` keys. -/
def checkpointDue (checkpoint_every n i : Nat) : Bool :=
  (i % checkpoint_every == 0) || (i == n)

/-- One loop iteration: append the resolved record to the batch, then
flush-and-clear when the checkpoint test fires. -/
def engineStep (checkpoint_every n i : Nat) (rec : LookupRecord)
    (s : EngineState) : EngineState :=
  let batch1 := s.batch ++ [rec]
  if checkpointDue checkpoint_every n i then
    { batch := [], store := s.store ++ batch1 }
  else
    { batch := batch1, store := s.store }

/-- Run the loop body over a list of resolved records, with `i` the
1-based index of the first of them. -/
def engineRun (checkpoint_every n : Nat) :
    List LookupRecord → Nat → EngineState → EngineState
  | [], _, s => s
  | r :: rs, i, s =>
      engineRun checkpoint_every n rs (i + 1)
        (engineStep checkpoint_every n i r s)

/-- The 1-based iteration indices at which the loop writes to the store. -/
def flushPoints (checkpoint_every n : Nat) : List Nat :=
  ((List.range n).map (fun j => j + 1)).filter
    (fun i => checkpointDue checkpoint_every n i)

/-- Where inside the loop body an abort (uncaught exception, termination
that unwinds the loop) strikes: before the current record is appended to
the batch (this covers the rate-limit wait and the lookup itself), or
after it is appended (between the append and the end of the iteration). -/
inductive AbortPoint where
  | beforeAppend
  | afterAppend
deriving DecidableEq, Repr

/-- Engine state at the moment of an abort: `k` full iterations have run
from the empty initial state, and iteration `k+1` (if any) has aborted at
point `p`. -/
def abortState (checkpoint_every : Nat) (recs : List LookupRecord)
    (k : Nat) (p : AbortPoint) : EngineState :=
  let s := engineRun checkpoint_every recs.length (recs.take k) 1
    { batch := [], store := [] }
  match p with
  | .beforeAppend => s
  | .afterAppend =>
      match recs.drop k with
      | [] => s
      | r :: _ => { s with batch := s.batch ++ [r] }

/-- The `finally` block: flush the pending batch if it is non-empty. -/
def engineExit (s : EngineState) : EngineState :=
  if s.batch.isEmpty then s
  else { batch := [], store := s.store ++ s.batch }

/-- The records the aborted run had appended to its in-memory batch:
the `k` fully processed ones, plus the one appended by the aborted
iteration when the abort struck after the append. -/
def abortAppended (recs : List LookupRecord) (k : Nat) (p : AbortPoint) :
    List LookupRecord :=
  match p with
  | .beforeAppend => recs.take k
  | .afterAppend =>
      match recs.drop k with
      | [] => recs.take k
      | r :: _ => recs.take k ++ [r]

/-! ### Helper lemmas -/

/-- `rate_limit_sleep` with its let-bindings inlined. -/
theorem rate_limit_sleep_eq (last_call_ts now rate : ℚ) :
    rate_limit_sleep last_call_ts now rate =
      if rate ≤ 0 then 0
      else if now - last_call_ts < 1 / rate then
        1 / rate - (now - last_call_ts)
      else 0 := rfl

/-- One backoff step only grows when the base is at least `19/15` (the
jitter factor drops from `1.9` back to `1.5` every third attempt). -/
theorem backoffSleep_step (base : ℚ) (hb : 19 / 15 ≤ base) (a : Nat) :
    backoffSleep base a ≤ backoffSleep base (a + 1) := by
  have hb0 : (0 : ℚ) < base := lt_of_lt_of_le (by norm_num) hb
  have hpow : (0 : ℚ) < base ^ a := pow_pos hb0 a
  have key : (3 / 2 + ((a % 3 : Nat) : ℚ) * (1 / 5))
      ≤ base * (3 / 2 + (((a + 1) % 3 : Nat) : ℚ) * (1 / 5)) := by
    have hmod : a % 3 = 0 ∨ a % 3 = 1 ∨ a % 3 = 2 := by omega
    rcases hmod with h | h | h
    · have h1 : (a + 1) % 3 = 1 := by omega
      rw [h, h1]; push_cast; linarith
    · have h1 : (a + 1) % 3 = 2 := by omega
      rw [h, h1]; push_cast; linarith
    · have h1 : (a + 1) % 3 = 0 := by omega
      rw [h, h1]; push_cast; linarith
  calc backoffSleep base a
      = base ^ a * (3 / 2 + ((a % 3 : Nat) : ℚ) * (1 / 5)) := rfl
    _ ≤ base ^ a * (base * (3 / 2 + (((a + 1) % 3 : Nat) : ℚ) * (1 / 5))) :=
        mul_le_mul_of_nonneg_left key (le_of_lt hpow)
    _ = backoffSleep base (a + 1) := by rw [backoffSleep, pow_succ]; ring

/-- Deduplication keeps exactly the values of the original list. -/
theorem dedupFirst_mem (a : String) (l : List String) :
    a ∈ dedupFirst l ↔ a ∈ l := by
  induction l using dedupFirst.induct with
  | case1 => rw [dedupFirst]
  | case2 x xs ih =>
      rw [dedupFirst]
      by_cases hax : a = x
      · subst hax; simp
      · simp only [List.mem_cons, ih, List.mem_filter, decide_eq_true_eq]
        simp [hax]

/-- Every 5xx status code is classified retryable. -/
theorem classifyHttp_5xx (s : Nat) (h : 500 ≤ s) :
    classifyHttp (some s) = .retryable := by
  rw [classifyHttp]
  rw [if_neg (by simp; omega)]
  rw [if_neg (by omega)]

/-- The lookup loop performs at most `max_retries - attempt` further
backoff sleeps, and (when the retry counter is within the cap) at most
`callIdx + (max_retries - attempt) + 1` total calls. -/
theorem robustLookupGo_bounded (txid api_source : String) (backoff_base : ℚ)
    (max_retries : Nat) (oracle : Nat → FetchOutcome) (callIdx attempt : Nat) :
    (attempt ≤ max_retries →
      (robustLookupGo txid api_source backoff_base max_retries oracle
        callIdx attempt).calls ≤ callIdx + (max_retries - attempt) + 1)
    ∧ (robustLookupGo txid api_source backoff_base max_retries oracle
        callIdx attempt).sleeps.length ≤ max_retries - attempt := by
  induction callIdx, attempt
    using robustLookupGo.induct txid api_source backoff_base max_retries oracle with
  | case1 callIdx attempt tx h =>
      rw [robustLookupGo, h]
      dsimp only
      exact ⟨fun _ => by omega, by simp⟩
  | case2 callIdx attempt sc h hc =>
      rw [robustLookupGo, h]
      dsimp only
      rw [hc]
      dsimp only
      exact ⟨fun _ => by omega, by simp⟩
  | case3 callIdx attempt sc h c hc =>
      rw [robustLookupGo, h]
      dsimp only
      rw [hc]
      dsimp only
      exact ⟨fun _ => by omega, by simp⟩
  | case4 callIdx attempt sc h hc hlt =>
      rw [robustLookupGo, h]
      dsimp only
      rw [hc]
      dsimp only
      rw [dif_pos hlt]
      dsimp only
      exact ⟨fun _ => by omega, by simp⟩
  | case5 callIdx attempt sc h hc hlt ih =>
      rw [robustLookupGo, h]
      dsimp only
      rw [hc]
      dsimp only
      rw [dif_neg hlt]
      dsimp only
      refine ⟨fun _ => ?_, ?_⟩
      · have := ih.1 (by omega)
        omega
      · have := ih.2
        simp only [List.length_cons]
        omega
  | case6 callIdx attempt h hlt =>
      rw [robustLookupGo, h]
      dsimp only
      rw [dif_pos hlt]
      dsimp only
      exact ⟨fun _ => by omega, by simp⟩
  | case7 callIdx attempt h hlt ih =>
      rw [robustLookupGo, h]
      dsimp only
      rw [dif_neg hlt]
      dsimp only
      refine ⟨fun _ => ?_, ?_⟩
      · have := ih.1 (by omega)
        omega
      · have := ih.2
        simp only [List.length_cons]
        omega
  | case8 callIdx attempt detail h =>
      rw [robustLookupGo, h]
      dsimp only
      exact ⟨fun _ => by omega, by simp⟩

/-- Structural invariant of every record the lookup loop can return: it
carries the requested key and source, and an error record has no block
fields. -/
theorem robustLookupGo_record_inv (txid api_source : String)
    (backoff_base : ℚ) (max_retries : Nat) (oracle : Nat → FetchOutcome)
    (callIdx attempt : Nat) :
    (robustLookupGo txid api_source backoff_base max_retries oracle
        callIdx attempt).record.txid = txid
    ∧ (robustLookupGo txid api_source backoff_base max_retries oracle
        callIdx attempt).record.api_source = api_source
    ∧ ((robustLookupGo txid api_source backoff_base max_retries oracle
          callIdx attempt).record.error ≠ none →
        (robustLookupGo txid api_source backoff_base max_retries oracle
            callIdx attempt).record
          = errRecord txid api_source
              ((robustLookupGo txid api_source backoff_base max_retries oracle
                  callIdx attempt).record.error.getD "")) := by
  induction callIdx, attempt
    using robustLookupGo.induct txid api_source backoff_base max_retries oracle with
  | case1 callIdx attempt tx h =>
      rw [robustLookupGo, h]
      dsimp only
      exact ⟨rfl, rfl, fun hne => absurd rfl hne⟩
  | case2 callIdx attempt sc h hc =>
      rw [robustLookupGo, h]
      dsimp only
      rw [hc]
      dsimp only
      exact ⟨rfl, rfl, fun _ => rfl⟩
  | case3 callIdx attempt sc h c hc =>
      rw [robustLookupGo, h]
      dsimp only
      rw [hc]
      dsimp only
      exact ⟨rfl, rfl, fun _ => rfl⟩
  | case4 callIdx attempt sc h hc hlt =>
      rw [robustLookupGo, h]
      dsimp only
      rw [hc]
      dsimp only
      rw [dif_pos hlt]
      dsimp only
      exact ⟨rfl, rfl, fun _ => rfl⟩
  | case5 callIdx attempt sc h hc hlt ih =>
      rw [robustLookupGo, h]
      dsimp only
      rw [hc]
      dsimp only
      rw [dif_neg hlt]
      dsimp only
      exact ih
  | case6 callIdx attempt h hlt =>
      rw [robustLookupGo, h]
      dsimp only
      rw [dif_pos hlt]
      dsimp only
      exact ⟨rfl, rfl, fun _ => rfl⟩
  | case7 callIdx attempt h hlt ih =>
      rw [robustLookupGo, h]
      dsimp only
      rw [dif_neg hlt]
      dsimp only
      exact ih
  | case8 callIdx attempt detail h =>
      rw [robustLookupGo, h]
      dsimp only
      exact ⟨rfl, rfl, fun _ => rfl⟩

/-- When every call fails with a 5xx status, the loop returns the
HTTP-exhaustion record after exactly `max_retries - attempt` further
retries. -/
theorem robustLookupGo_all5xx (txid api_source : String) (backoff_base : ℚ)
    (max_retries : Nat) (oracle : Nat → FetchOutcome)
    (h5 : ∀ i, ∃ s, 500 ≤ s ∧ s ≤ 599 ∧ oracle i = .httpError (some s))
    (callIdx attempt : Nat) :
    attempt ≤ max_retries →
      (robustLookupGo txid api_source backoff_base max_retries oracle
          callIdx attempt).record
        = errRecord txid api_source
            ("HTTP error after " ++ toString max_retries ++ " retries")
      ∧ (robustLookupGo txid api_source backoff_base max_retries oracle
          callIdx attempt).calls = callIdx + (max_retries - attempt) + 1 := by
  induction callIdx, attempt
    using robustLookupGo.induct txid api_source backoff_base max_retries oracle with
  | case1 callIdx attempt tx h =>
      obtain ⟨s, _, _, hs⟩ := h5 callIdx
      rw [h] at hs
      exact absurd hs (by simp)
  | case2 callIdx attempt sc h hc =>
      obtain ⟨s, hs5, _, hs⟩ := h5 callIdx
      rw [h] at hs
      obtain rfl : sc = some s := by injection hs
      rw [classifyHttp_5xx s hs5] at hc
      exact absurd hc (by simp)
  | case3 callIdx attempt sc h c hc =>
      obtain ⟨s, hs5, _, hs⟩ := h5 callIdx
      rw [h] at hs
      obtain rfl : sc = some s := by injection hs
      rw [classifyHttp_5xx s hs5] at hc
      exact absurd hc (by simp)
  | case4 callIdx attempt sc h hc hlt =>
      intro hle
      rw [robustLookupGo, h]
      dsimp only
      rw [hc]
      dsimp only
      rw [dif_pos hlt]
      dsimp only
      have : attempt = max_retries := by omega
      subst this
      exact ⟨rfl, by omega⟩
  | case5 callIdx attempt sc h hc hlt ih =>
      intro hle
      rw [robustLookupGo, h]
      dsimp only
      rw [hc]
      dsimp only
      rw [dif_neg hlt]
      dsimp only
      have := ih (by omega)
      exact ⟨this.1, by omega⟩
  | case6 callIdx attempt h hlt =>
      obtain ⟨s, _, _, hs⟩ := h5 callIdx
      rw [h] at hs
      exact absurd hs (by simp)
  | case7 callIdx attempt h hlt ih =>
      obtain ⟨s, _, _, hs⟩ := h5 callIdx
      rw [h] at hs
      exact absurd hs (by simp)
  | case8 callIdx attempt detail h =>
      obtain ⟨s, _, _, hs⟩ := h5 callIdx
      rw [h] at hs
      exact absurd hs (by simp)

/-- A first call failing with HTTP 404 returns the `404 Not Found`
record at once: one call, no retry. -/
theorem robust_lookup_first404 (txid api_source : String)
    (oracle : Nat → FetchOutcome) (max_retries : Nat) (backoff_base : ℚ)
    (h : oracle 0 = .httpError (some 404)) :
    robust_lookup txid api_source oracle max_retries backoff_base
      = { record := errRecord txid api_source "404 Not Found",
          calls := 1, sleeps := [] } := by
  rw [robust_lookup, robustLookupGo, h]
  rfl

/-- A call failing with HTTP 429 inside the retry budget sleeps once and
continues with the next call and an incremented retry counter. -/
theorem robustLookupGo_step429 (txid api_source : String) (backoff_base : ℚ)
    (max_retries : Nat) (oracle : Nat → FetchOutcome) (callIdx attempt : Nat)
    (h : oracle callIdx = .httpError (some 429))
    (hlt : ¬ max_retries < attempt + 1) :
    robustLookupGo txid api_source backoff_base max_retries oracle
        callIdx attempt
      = { record := (robustLookupGo txid api_source backoff_base max_retries
            oracle (callIdx + 1) (attempt + 1)).record,
          calls := (robustLookupGo txid api_source backoff_base max_retries
            oracle (callIdx + 1) (attempt + 1)).calls,
          sleeps := backoffSleep backoff_base (attempt + 1)
            :: (robustLookupGo txid api_source backoff_base max_retries
              oracle (callIdx + 1) (attempt + 1)).sleeps } := by
  rw [robustLookupGo, h]
  dsimp only
  rw [show classifyHttp (some 429) = .retryable from rfl]
  dsimp only
  rw [dif_neg hlt]

/-- A successful call returns at once with the fields extracted from the
response and no error. -/
theorem robustLookupGo_success_step (txid api_source : String)
    (backoff_base : ℚ) (max_retries : Nat) (oracle : Nat → FetchOutcome)
    (callIdx attempt : Nat) (tx : TxJson) (h : oracle callIdx = .success tx) :
    robustLookupGo txid api_source backoff_base max_retries oracle
        callIdx attempt
      = { record :=
            { txid := txid,
              block_height :=
                (extract_block_fields_from_esplora tx).block_height,
              block_time_unix :=
                (extract_block_fields_from_esplora tx).block_time_unix,
              block_time_utc_iso :=
                (extract_block_fields_from_esplora tx).block_time_utc_iso,
              block_hash := (extract_block_fields_from_esplora tx).block_hash,
              api_source := api_source, error := none },
          calls := callIdx + 1, sleeps := [] } := by
  rw [robustLookupGo, h]

/-! ### Claim theorems -/

/-- C4: the rate limiter never sleeps when the configured rate is
non-positive; when the rate is positive it sleeps zero once `1/rate` has
already elapsed since the previous call, and otherwise exactly enough
that the interval since the previous call equals `1/rate`; hence across
consecutive gated calls whose timestamps satisfy the sleep discipline,
the `n`-th call is at least `n/rate` after the first. -/
theorem C4_rate_limiter :
    (∀ last now rate : ℚ, rate ≤ 0 → rate_limit_sleep last now rate = 0)
    ∧ (∀ last now rate : ℚ, 0 < rate → 1 / rate ≤ now - last →
        rate_limit_sleep last now rate = 0)
    ∧ (∀ last now rate : ℚ, 0 < rate → now - last < 1 / rate →
        (now + rate_limit_sleep last now rate) - last = 1 / rate)
    ∧ (∀ rate : ℚ, 0 < rate → ∀ t now : ℕ → ℚ,
        (∀ i, now i + rate_limit_sleep (t i) (now i) rate ≤ t (i + 1)) →
        ∀ n : ℕ, (n : ℚ) / rate ≤ t n - t 0) := by
  refine ⟨?_, ?_, ?_, ?_⟩
  · intro last now rate h
    rw [rate_limit_sleep_eq, if_pos h]
  · intro last now rate hrate h
    rw [rate_limit_sleep_eq, if_neg (not_le.mpr hrate), if_neg (not_lt.mpr h)]
  · intro last now rate hrate h
    rw [rate_limit_sleep_eq, if_neg (not_le.mpr hrate), if_pos h]
    ring
  · intro rate hrate t now hsleep n
    have step : ∀ i, t i + 1 / rate ≤ t (i + 1) := by
      intro i
      have h := hsleep i
      rw [rate_limit_sleep_eq, if_neg (not_le.mpr hrate)] at h
      by_cases hlt : now i - t i < 1 / rate
      · rw [if_pos hlt] at h; linarith
      · rw [if_neg hlt] at h
        push_neg at hlt
        linarith
    have main : ∀ m : ℕ, t 0 + (m : ℚ) * (1 / rate) ≤ t m := by
      intro m
      induction m with
      | zero => simp
      | succ m ih =>
          have := step m
          push_cast
          push_cast at ih
          linarith
    have := main n
    have heq : (n : ℚ) / rate = (n : ℚ) * (1 / rate) := by ring
    linarith [heq ▸ this]

/-- C4 witness: with rate 1 and calls at integer timestamps the sleep
discipline holds and the third call is at least 3 seconds after the
first. -/
theorem C4_rate_limiter_witness :
    (3 : ℚ) / 1 ≤ (fun i : ℕ => (i : ℚ)) 3 - (fun i : ℕ => (i : ℚ)) 0 := by
  refine C4_rate_limiter.2.2.2 1 one_pos (fun i : ℕ => (i : ℚ))
    (fun i : ℕ => (i : ℚ)) ?_ 3
  intro i
  rw [rate_limit_sleep_eq]
  norm_num

/-- C8: at 1-based iteration `i` of a run over `n` pending keys with a
positive checkpoint interval, the loop flushes the pending batch to the
store (and clears it) exactly when `i` is a multiple of the interval or
`i = n`; with interval 3 and 7 keys the flushes happen after the 3rd,
6th and 7th resolutions. -/
theorem C8_checkpoint_schedule (checkpoint_every n i : Nat)
    (hpos : 0 < checkpoint_every) (h1 : 1 ≤ i) (hn : i ≤ n) :
    (checkpointDue checkpoint_every n i = true ↔ (checkpoint_every ∣ i ∨ i = n))
    ∧ (∀ (rec : LookupRecord) (s : EngineState),
        checkpointDue checkpoint_every n i = true →
          engineStep checkpoint_every n i rec s
            = { batch := [], store := s.store ++ (s.batch ++ [rec]) })
    ∧ (∀ (rec : LookupRecord) (s : EngineState),
        checkpointDue checkpoint_every n i = false →
          engineStep checkpoint_every n i rec s
            = { batch := s.batch ++ [rec], store := s.store })
    ∧ flushPoints 3 7 = [3, 6, 7] := by
  refine ⟨?_, ?_, ?_, by decide⟩
  · have h0 : 0 < checkpoint_every := hpos
    have h2 : 1 ≤ i := h1
    have h3 : i ≤ n := hn
    simp [checkpointDue, Nat.dvd_iff_mod_eq_zero]
  · intro rec s h
    simp [engineStep, h]
  · intro rec s h
    simp [engineStep, h]

/-- C8 witness: with interval 3 over 7 keys, iteration 6 checkpoints. -/
theorem C8_checkpoint_schedule_witness :
    checkpointDue 3 7 6 = true ↔ (3 ∣ 6 ∨ 6 = 7) :=
  (C8_checkpoint_schedule 3 7 6 (by decide) (by decide) (by decide)).1

/-- C5 counterexample: with the default backoff base `0.8` (positive) and
attempts `1 < 2`, both within the default retry bound of 5, the sleep
computed at attempt 2 is strictly smaller than the one at attempt 1, so
the backoff sequence is not monotonically non-decreasing for every
positive base. -/
theorem C5_counterexample :
    (0 : ℚ) < 4 / 5 ∧ (1 : Nat) < 2 ∧ (2 : Nat) ≤ 5
      ∧ backoffSleep (4 / 5) 2 < backoffSleep (4 / 5) 1 := by
  refine ⟨by norm_num, by norm_num, by norm_num, ?_⟩
  norm_num [backoffSleep]

/-- C5 (amended): the backoff sequence
`backoff_base ^ attempt * (1.5 + (attempt mod 3) * 0.2)` is monotonically
non-decreasing across attempts whenever `backoff_base ≥ 19/15` (for
smaller positive bases, such as the default `0.8`, it is not), and the
number of attempts is bounded by the retry cap: `robust_lookup` performs
at most `max_retries` backoff sleeps and `max_retries + 1` calls. -/
theorem C5_amended (base : ℚ) (hb : 19 / 15 ≤ base) :
    (∀ n m : Nat, n ≤ m → backoffSleep base n ≤ backoffSleep base m)
    ∧ (∀ (txid api_source : String) (oracle : Nat → FetchOutcome)
        (max_retries : Nat),
        (robust_lookup txid api_source oracle max_retries base).sleeps.length
            ≤ max_retries
        ∧ (robust_lookup txid api_source oracle max_retries base).calls
            ≤ max_retries + 1) := by
  constructor
  · intro n m h
    induction m, h using Nat.le_induction with
    | base => exact le_refl _
    | succ m hnm ih => exact le_trans ih (backoffSleep_step base hb m)
  · intro txid api_source oracle max_retries
    have h := robustLookupGo_bounded txid api_source base max_retries oracle 0 0
    refine ⟨?_, ?_⟩
    · have := h.2
      simpa [robust_lookup] using this
    · have := h.1 (Nat.zero_le _)
      simpa [robust_lookup] using this

/-- C5 witness: with base `3/2 ≥ 19/15` the sleeps grow from attempt 1
to attempt 4, and a run capped at 2 retries sleeps at most twice and
calls at most three times. -/
theorem C5_amended_witness :
    backoffSleep (3 / 2) 1 ≤ backoffSleep (3 / 2) 4
    ∧ (robust_lookup "txid0" "blockstream"
        (fun _ => .netError) 2 (3 / 2)).sleeps.length ≤ 2
    ∧ (robust_lookup "txid0" "blockstream"
        (fun _ => .netError) 2 (3 / 2)).calls ≤ 2 + 1 :=
  ⟨(C5_amended (3 / 2) (by norm_num)).1 1 4 (by norm_num),
   ((C5_amended (3 / 2) (by norm_num)).2 "txid0" "blockstream"
      (fun _ => .netError) 2).1,
   ((C5_amended (3 / 2) (by norm_num)).2 "txid0" "blockstream"
      (fun _ => .netError) 2).2⟩

/-- C10: `iso_utc` is total: it returns `none` on `None`, on NaN, and on
any integer outside the range `datetime.fromtimestamp` accepts, and on
every in-range integer it returns the UTC ISO-8601 string of that
timestamp (checked on the epoch, on a known date, and on both range
endpoints). -/
theorem C10_iso_utc_total :
    iso_utc .null = none
    ∧ iso_utc .nan = none
    ∧ (∀ n : Int, n < MIN_TS ∨ MAX_TS < n → iso_utc (.int n) = none)
    ∧ (∀ n : Int, MIN_TS ≤ n → n ≤ MAX_TS →
        iso_utc (.int n) = some (isoformatUtc (utcPartsOfTimestamp n)))
    ∧ iso_utc (.int 0) = some "1970-01-01T00:00:00+00:00"
    ∧ iso_utc (.int 1470096000) = some "2016-08-02T00:00:00+00:00"
    ∧ iso_utc (.int MIN_TS) = some "0001-01-01T00:00:00+00:00"
    ∧ iso_utc (.int MAX_TS) = some "9999-12-31T23:59:59+00:00"
    ∧ iso_utc (.int (MAX_TS + 1)) = none
    ∧ iso_utc (.int (MIN_TS - 1)) = none := by
  refine ⟨rfl, rfl, ?_, ?_, rfl, rfl, rfl, rfl, rfl, rfl⟩
  · intro n hn
    have hno : ¬ (MIN_TS ≤ n ∧ n ≤ MAX_TS) := by
      rcases hn with h | h
      · exact fun hc => absurd hc.1 (not_le.mpr h)
      · exact fun hc => absurd hc.2 (not_le.mpr h)
    simp [iso_utc, fromtimestampUtc, hno]
  · intro n h1 h2
    simp [iso_utc, fromtimestampUtc, h1, h2]

/-- C10 witness: the in-range branch applied at the epoch timestamp. -/
theorem C10_iso_utc_total_witness :
    iso_utc (.int 0) = some (isoformatUtc (utcPartsOfTimestamp 0)) :=
  C10_iso_utc_total.2.2.2.1 0 (by decide) (by decide)

/-- C1 counterexample: with `max_retries = 1` and every call failing with
HTTP 503, `robust_lookup` performs 2 calls, i.e. it does perform the
`(max_retries + 1)`-th call to the lookup client that the claim rules
out. -/
theorem C1_counterexample :
    (robust_lookup "txid0" "blockstream"
        (fun _ => .httpError (some 503)) 1 (4 / 5)).calls = 2
    ∧ ¬ ((robust_lookup "txid0" "blockstream"
        (fun _ => .httpError (some 503)) 1 (4 / 5)).calls ≤ 1) := by
  have h := robustLookupGo_all5xx "txid0" "blockstream" (4 / 5) 1
    (fun _ => .httpError (some 503))
    (fun _ => ⟨503, by norm_num, by norm_num, rfl⟩) 0 0 (Nat.zero_le _)
  rw [robust_lookup]
  rw [h.2]
  omega

/-- C1 (amended): for every key whose every lookup attempt fails with a
retryable 5xx error, `robust_lookup` returns the record whose error is
`HTTP error after max_retries retries` with all block fields absent,
after performing exactly `max_retries + 1` calls to the lookup client
(the initial call plus `max_retries` retries); it performs no
`(max_retries + 2)`-th call. -/
theorem C1_retry_exhaustion_amended (txid api_source : String)
    (backoff_base : ℚ) (max_retries : Nat) (oracle : Nat → FetchOutcome)
    (h5 : ∀ i, ∃ s, 500 ≤ s ∧ s ≤ 599 ∧ oracle i = .httpError (some s)) :
    (robust_lookup txid api_source oracle max_retries backoff_base).record
      = errRecord txid api_source
          ("HTTP error after " ++ toString max_retries ++ " retries")
    ∧ (robust_lookup txid api_source oracle max_retries backoff_base).calls
      = max_retries + 1 := by
  have h := robustLookupGo_all5xx txid api_source backoff_base max_retries
    oracle h5 0 0 (Nat.zero_le _)
  exact ⟨h.1, by rw [robust_lookup, h.2]; omega⟩

/-- C1 witness: two retries of an all-503 key give the exhaustion record
after exactly three calls. -/
theorem C1_retry_exhaustion_amended_witness :
    (robust_lookup "txid0" "blockstream"
        (fun _ => .httpError (some 503)) 2 (4 / 5)).record
      = errRecord "txid0" "blockstream"
          ("HTTP error after " ++ toString 2 ++ " retries")
    ∧ (robust_lookup "txid0" "blockstream"
        (fun _ => .httpError (some 503)) 2 (4 / 5)).calls = 2 + 1 :=
  C1_retry_exhaustion_amended "txid0" "blockstream" (4 / 5) 2
    (fun _ => .httpError (some 503))
    (fun _ => ⟨503, by norm_num, by norm_num, rfl⟩)

/-- C9: whatever the sequence of lookup outcomes, the record returned by
`robust_lookup` carries the supplied key as `txid` and the requested
source as `api_source`, and whenever its `error` field is set, all four
block fields are `none`. -/
theorem C9_record_invariant (txid api_source : String)
    (oracle : Nat → FetchOutcome) (max_retries : Nat) (backoff_base : ℚ) :
    (robust_lookup txid api_source oracle max_retries backoff_base).record.txid
      = txid
    ∧ (robust_lookup txid api_source oracle max_retries
        backoff_base).record.api_source = api_source
    ∧ ((robust_lookup txid api_source oracle max_retries
          backoff_base).record.error ≠ none →
        (robust_lookup txid api_source oracle max_retries
            backoff_base).record.block_height = none
        ∧ (robust_lookup txid api_source oracle max_retries
            backoff_base).record.block_time_unix = none
        ∧ (robust_lookup txid api_source oracle max_retries
            backoff_base).record.block_time_utc_iso = none
        ∧ (robust_lookup txid api_source oracle max_retries
            backoff_base).record.block_hash = none) := by
  have h := robustLookupGo_record_inv txid api_source backoff_base
    max_retries oracle 0 0
  refine ⟨h.1, h.2.1, fun hne => ?_⟩
  have herr := h.2.2 hne
  rw [robust_lookup] at *
  rw [herr]
  exact ⟨rfl, rfl, rfl, rfl⟩

/-- C9 witness: a 404 outcome yields an error record for the supplied
key with no block fields. -/
theorem C9_record_invariant_witness :
    (robust_lookup "txid0" "mempool"
        (fun _ => .httpError (some 404)) 5 (4 / 5)).record.txid = "txid0"
    ∧ (robust_lookup "txid0" "mempool"
        (fun _ => .httpError (some 404)) 5 (4 / 5)).record.block_height
      = none :=
  ⟨(C9_record_invariant "txid0" "mempool"
      (fun _ => .httpError (some 404)) 5 (4 / 5)).1,
   ((C9_record_invariant "txid0" "mempool"
      (fun _ => .httpError (some 404)) 5 (4 / 5)).2.2
      (by rw [robust_lookup_first404 "txid0" "mempool"
          (fun _ => .httpError (some 404)) 5 (4 / 5) rfl]; decide)).1⟩

/-- C6: a first lookup failing with HTTP 404 makes `robust_lookup`
return immediately after exactly one call with error `404 Not Found` and
no retry sleep; and a lookup failing with HTTP 429 on three consecutive
calls and then succeeding (with `max_retries ≥ 3`) returns the record
with the block fields of the confirmed response and `error = none`,
after exactly four calls. -/
theorem C6_terminal_vs_retryable (txid api_source : String)
    (backoff_base : ℚ) (max_retries : Nat) (o404 o429 : Nat → FetchOutcome)
    (tx : TxJson) (st : TxStatus)
    (h404 : o404 0 = .httpError (some 404))
    (h429 : ∀ i, i < 3 → o429 i = .httpError (some 429))
    (hsucc : o429 3 = .success tx)
    (hmr : 3 ≤ max_retries)
    (hst : tx.status = some st) (hconf : st.confirmed = true) :
    ((robust_lookup txid api_source o404 max_retries backoff_base).record.error
        = some "404 Not Found"
      ∧ (robust_lookup txid api_source o404 max_retries backoff_base).calls = 1
      ∧ (robust_lookup txid api_source o404 max_retries backoff_base).sleeps
        = [])
    ∧ ((robust_lookup txid api_source o429 max_retries
          backoff_base).record.error = none
      ∧ (robust_lookup txid api_source o429 max_retries
          backoff_base).record.block_height = st.block_height
      ∧ (robust_lookup txid api_source o429 max_retries
          backoff_base).record.block_time_unix = st.block_time
      ∧ (robust_lookup txid api_source o429 max_retries
          backoff_base).record.block_hash = st.block_hash
      ∧ (robust_lookup txid api_source o429 max_retries backoff_base).calls
        = 4) := by
  constructor
  · rw [robust_lookup_first404 txid api_source o404 max_retries
      backoff_base h404]
    exact ⟨rfl, rfl, rfl⟩
  · have e0 := robustLookupGo_step429 txid api_source backoff_base
      max_retries o429 0 0 (h429 0 (by omega)) (by omega)
    have e1 := robustLookupGo_step429 txid api_source backoff_base
      max_retries o429 1 1 (h429 1 (by omega)) (by omega)
    have e2 := robustLookupGo_step429 txid api_source backoff_base
      max_retries o429 2 2 (h429 2 (by omega)) (by omega)
    have e3 := robustLookupGo_success_step txid api_source backoff_base
      max_retries o429 3 3 tx hsucc
    have hx : extract_block_fields_from_esplora tx
        = { block_height := st.block_height,
            block_time_unix := st.block_time,
            block_time_utc_iso := iso_utc (pyOfOptInt st.block_time),
            block_hash := st.block_hash } := by
      rw [extract_block_fields_from_esplora, hst]
      dsimp only
      rw [hconf]
      rfl
    rw [robust_lookup, e0]
    dsimp only
    rw [e1]
    dsimp only
    rw [e2]
    dsimp only
    rw [e3]
    dsimp only
    rw [hx]
    exact ⟨rfl, rfl, rfl, rfl, rfl⟩

/-- C6 witness: concrete oracles realizing the two scenarios, with a
confirmed success response carrying height 420000. -/
theorem C6_terminal_vs_retryable_witness :
    ((robust_lookup "txid0" "blockstream"
        (fun _ => .httpError (some 404)) 3 (4 / 5)).record.error
        = some "404 Not Found"
      ∧ (robust_lookup "txid0" "blockstream"
          (fun _ => .httpError (some 404)) 3 (4 / 5)).calls = 1
      ∧ (robust_lookup "txid0" "blockstream"
          (fun _ => .httpError (some 404)) 3 (4 / 5)).sleeps = [])
    ∧ ((robust_lookup "txid0" "blockstream"
          (fun i => if i < 3 then .httpError (some 429)
            else .success ⟨some ⟨true, some 420000, some "hash0",
              some 1470096000⟩⟩) 3 (4 / 5)).record.error = none
      ∧ (robust_lookup "txid0" "blockstream"
          (fun i => if i < 3 then .httpError (some 429)
            else .success ⟨some ⟨true, some 420000, some "hash0",
              some 1470096000⟩⟩) 3 (4 / 5)).record.block_height
        = (⟨true, some 420000, some "hash0", some 1470096000⟩
            : TxStatus).block_height
      ∧ (robust_lookup "txid0" "blockstream"
          (fun i => if i < 3 then .httpError (some 429)
            else .success ⟨some ⟨true, some 420000, some "hash0",
              some 1470096000⟩⟩) 3 (4 / 5)).record.block_time_unix
        = (⟨true, some 420000, some "hash0", some 1470096000⟩
            : TxStatus).block_time
      ∧ (robust_lookup "txid0" "blockstream"
          (fun i => if i < 3 then .httpError (some 429)
            else .success ⟨some ⟨true, some 420000, some "hash0",
              some 1470096000⟩⟩) 3 (4 / 5)).record.block_hash
        = (⟨true, some 420000, some "hash0", some 1470096000⟩
            : TxStatus).block_hash
      ∧ (robust_lookup "txid0" "blockstream"
          (fun i => if i < 3 then .httpError (some 429)
            else .success ⟨some ⟨true, some 420000, some "hash0",
              some 1470096000⟩⟩) 3 (4 / 5)).calls = 4) :=
  C6_terminal_vs_retryable "txid0" "blockstream" (4 / 5) 3
    (fun _ => .httpError (some 404))
    (fun i => if i < 3 then .httpError (some 429)
      else .success ⟨some ⟨true, some 420000, some "hash0",
        some 1470096000⟩⟩)
    ⟨some ⟨true, some 420000, some "hash0", some 1470096000⟩⟩
    ⟨true, some 420000, some "hash0", some 1470096000⟩
    rfl
    (fun i hi => by simp [hi])
    (by norm_num)
    (by norm_num)
    rfl rfl

/-- C7: a raw response whose status object is missing, empty or not
confirmed extracts to all-`none` block fields, and `robust_lookup` on a
first call returning such a response yields a success record: every
block field `none` and `error = none`, distinct from any failure
record. -/
theorem C7_unconfirmed_is_success (tx : TxJson)
    (hunconf : ∀ st, tx.status = some st → st.confirmed = false)
    (txid api_source : String) (oracle : Nat → FetchOutcome)
    (max_retries : Nat) (backoff_base : ℚ)
    (h0 : oracle 0 = .success tx) :
    extract_block_fields_from_esplora tx
      = { block_height := none, block_time_unix := none,
          block_time_utc_iso := none, block_hash := none }
    ∧ (robust_lookup txid api_source oracle max_retries backoff_base).record
      = { txid := txid, block_height := none, block_time_unix := none,
          block_time_utc_iso := none, block_hash := none,
          api_source := api_source, error := none } := by
  have hx : extract_block_fields_from_esplora tx
      = { block_height := none, block_time_unix := none,
          block_time_utc_iso := none, block_hash := none } := by
    rw [extract_block_fields_from_esplora]
    cases hs : tx.status with
    | none => rfl
    | some st =>
        dsimp only
        rw [hunconf st hs]
        rfl
  refine ⟨hx, ?_⟩
  rw [robust_lookup, robustLookupGo_success_step txid api_source
    backoff_base max_retries oracle 0 0 tx h0, hx]

/-- Loop invariant: the store and the pending batch together hold
exactly the initial contents plus every record the loop has appended. -/
theorem engineRun_store_append (checkpoint_every n : Nat)
    (rs : List LookupRecord) (i : Nat) (s : EngineState) :
    (engineRun checkpoint_every n rs i s).store
        ++ (engineRun checkpoint_every n rs i s).batch
      = s.store ++ s.batch ++ rs := by
  induction rs generalizing i s with
  | nil => simp [engineRun]
  | cons r rs ih =>
      simp only [engineRun]
      rw [ih]
      by_cases hc : checkpointDue checkpoint_every n i
      · simp [engineStep, hc]
      · simp [engineStep, hc]

/-- The `finally` flush leaves an empty batch and a store holding
everything: prior store contents followed by the pending batch. -/
theorem engineExit_spec (s : EngineState) :
    (engineExit s).batch = [] ∧ (engineExit s).store = s.store ++ s.batch := by
  cases hsb : s.batch with
  | nil => simp [engineExit, hsb]
  | cons a l => simp [engineExit, hsb]

/-- C2: whatever the checkpoint interval, the resolved records, and the
abort position inside the loop, running the `finally` flush on the abort
state leaves no unflushed batch, and the store holds exactly every
record appended before the abort — partial progress is never lost. -/
theorem C2_flush_on_abort (checkpoint_every : Nat)
    (recs : List LookupRecord) (k : Nat) (p : AbortPoint) :
    (engineExit (abortState checkpoint_every recs k p)).batch = []
    ∧ (engineExit (abortState checkpoint_every recs k p)).store
      = abortAppended recs k p := by
  have hx := engineExit_spec (abortState checkpoint_every recs k p)
  refine ⟨hx.1, ?_⟩
  rw [hx.2]
  have hinv := engineRun_store_append checkpoint_every recs.length
    (recs.take k) 1 ⟨[], []⟩
  simp only [List.nil_append] at hinv
  cases p with
  | beforeAppend =>
      rw [abortState, abortAppended]
      exact hinv
  | afterAppend =>
      rw [abortState, abortAppended]
      cases hd : recs.drop k with
      | nil => exact hinv
      | cons r t => rw [← List.append_assoc, hinv]

/-- C3: the keys the batch engine looks up are exactly the normalized
input keys not already present (after lowercasing) in the Progress
Store; a key already in the store is never looked up; and the normalized
key set consists of the trimmed, lowercased input values. -/
theorem C3_resume_skips_done (rawColumn existingTxids : List String)
    (key : String) :
    (key ∈ issuedLookups rawColumn existingTxids
      ↔ key ∈ unique_txids_from_csv rawColumn
          ∧ key ∉ storeKeysLower existingTxids)
    ∧ (key ∈ storeKeysLower existingTxids →
        key ∉ issuedLookups rawColumn existingTxids)
    ∧ (key ∈ unique_txids_from_csv rawColumn
        ↔ ∃ r ∈ rawColumn, normalizeTxid r = key) := by
  have hiff : key ∈ issuedLookups rawColumn existingTxids
      ↔ key ∈ unique_txids_from_csv rawColumn
          ∧ key ∉ storeKeysLower existingTxids := by
    simp [issuedLookups, toFetch, List.mem_filter]
  refine ⟨hiff, fun hk hmem => ((hiff.mp hmem).2 hk), ?_⟩
  simp [unique_txids_from_csv, dedupFirst_mem, List.mem_map]

/-- C3 witness: with raw input `["A ", "b"]` and a store holding `"B"`,
the key `"b"` is in the store (lowercased) and is not looked up. -/
theorem C3_resume_skips_done_witness :
    "b" ∉ issuedLookups ["A ", "b"] ["B"] :=
  (C3_resume_skips_done ["A ", "b"] ["B"] "b").2.1 (by decide)

/-- C7 witness: a response with no status object at all. -/
theorem C7_unconfirmed_is_success_witness :
    extract_block_fields_from_esplora ⟨none⟩
      = { block_height := none, block_time_unix := none,
          block_time_utc_iso := none, block_hash := none }
    ∧ (robust_lookup "txid0" "blockstream"
        (fun _ => .success ⟨none⟩) 5 (4 / 5)).record
      = { txid := "txid0", block_height := none, block_time_unix := none,
          block_time_utc_iso := none, block_hash := none,
          api_source := "blockstream", error := none } :=
  C7_unconfirmed_is_success ⟨none⟩ (fun st hst => by simp at hst)
    "txid0" "blockstream" (fun _ => .success ⟨none⟩) 5 (4 / 5) rfl

end TxidBlockLookup
